import Mathlib

/-!
# IceVision backend: session lifecycle and consumption reconciliation

Shallow embedding of the IceVision backend (`src/main.py`): the session
registry (`session_start`, `session_close`, `sessions_list`) and the
consumption-delta reconciliation performed at session close.

Database rows are modelled as structures, tables as lists of rows (in
query order), timestamps as integers, and the Python `dict` built by the
comprehensions in `session_close` as an association list with Python's
insertion-order/last-write-wins semantics.  Python truthiness tests on
`Optional[int]` and `Optional[str]` values (`if payload.capture_before_id
and payload.capture_after_id:`, `if employee_code:`) are modelled
faithfully: `None`, `0` and `""` are falsy.
-/

namespace IceVision

/-- Row of the `employees` table (fields used by the modelled endpoints). -/
structure Employee where
  id : Int
  employee_code : String
  name : String
deriving DecidableEq

/-- Row of the `fridge_sessions` table. -/
structure FridgeSession where
  id : Int
  employee_id : Int
  device_id : String
  opened_at : Int
  closed_at : Option Int
  capture_before_id : Option Int
  capture_after_id : Option Int
  status : String
  notes : Option String
deriving DecidableEq

/-- Row of the `vision_items` table: one labelled item count of a capture. -/
structure VisionItem where
  capture_id : Int
  label : String
  quantity : Int
deriving DecidableEq

/-- Row of the `consumption_events` table. -/
structure ConsumptionEvent where
  session_id : Int
  employee_id : Int
  product_label : String
  quantity : Int
  created_at : Int
deriving DecidableEq

/-- The database state: each table as a list of rows in query order. -/
structure DB where
  employees : List Employee
  sessions : List FridgeSession
  vision_items : List VisionItem
  events : List ConsumptionEvent
deriving DecidableEq

/-- Python truthiness of an `Optional[int]` value: `None` and `0` are falsy. -/
def truthyInt : Option Int → Bool
  | none => false
  | some n => n != 0

/-- Python truthiness of an `Optional[str]` value: `None` and `""` are falsy. -/
def truthyStr : Option String → Bool
  | none => false
  | some s => s != ""

/-- One assignment `d[k] = v` on a Python dict kept as an association list:
overwrite in place if the key exists, else append (insertion order). -/
def dictInsert (d : List (String × Int)) (k : String) (v : Int) :
    List (String × Int) :=
  if d.any (fun p => p.1 == k) then
    d.map (fun p => if p.1 == k then (k, v) else p)
  else d ++ [(k, v)]

/-- The dict comprehension `{i.label: i.quantity for i in rows}`. -/
def dictOfItems (rows : List VisionItem) : List (String × Int) :=
  rows.foldl (fun d i => dictInsert d i.label i.quantity) []

/-- Python `d.get(k, dflt)`. -/
def dictGet (d : List (String × Int)) (k : String) (dflt : Int) : Int :=
  match d.find? (fun p => p.1 == k) with
  | some p => p.2
  | none => dflt

/-- `db.query(VisionItem).filter(VisionItem.capture_id == c).all()`.
The argument is the raw `Optional[int]` capture id; SQL equality with
`NULL` never holds, matching `some i.capture_id == none = false`. -/
def captureItems (db : DB) (c : Option Int) : List VisionItem :=
  db.vision_items.filter (fun i => some i.capture_id == c)

/-- The reconciliation loop of `session_close` (src/main.py lines 325-337):
for each before-label, `delta = qty_before - after.get(label, 0)`; an entry
`(label, delta)` is recorded iff `delta > 0`. -/
def reconcile (before_items after_items : List (String × Int)) :
    List (String × Int) :=
  before_items.filterMap (fun p =>
    let qty_after := dictGet after_items p.1 0
    let delta := p.2 - qty_after
    if delta > 0 then some (p.1, delta) else none)

/-- Request body of `POST /api/session_start`. -/
structure SessionStartRequest where
  employee_code : String
  device_id : String

/-- Request body of `POST /api/session_close`. -/
structure SessionCloseRequest where
  session_id : Int
  capture_before_id : Option Int
  capture_after_id : Option Int

/-- `POST /api/session_start`: resolve the employee by code (404 if none),
then insert a fresh open session.  `newId` stands for the id the database
assigns to the inserted row; `tnow` for `datetime.utcnow()`.  Returns the
(possibly updated) database and either the HTTP error status or the
response payload `(session_id, employee)`. -/
def session_start (db : DB) (payload : SessionStartRequest) (tnow : Int)
    (newId : Int) : DB × Except Nat (Int × Employee) :=
  match db.employees.find? (fun e => e.employee_code == payload.employee_code) with
  | none => (db, .error 404)
  | some emp =>
    let s : FridgeSession :=
      { id := newId, employee_id := emp.id, device_id := payload.device_id,
        opened_at := tnow, closed_at := none, capture_before_id := none,
        capture_after_id := none, status := "open", notes := none }
    ({ db with sessions := db.sessions ++ [s] }, .ok (newId, emp))

/-- Replace the first session whose id matches `sid` (the row `first()`
returned and the ORM mutated). -/
def replaceFirstSession : List FridgeSession → Int → FridgeSession →
    List FridgeSession
  | [], _, _ => []
  | s :: rest, sid, s' =>
    if s.id == sid then s' :: rest else s :: replaceFirstSession rest sid s'

/-- The consumption events `session_close` appends, one per consumed entry. -/
def eventsOf (s : FridgeSession) (consumed : List (String × Int)) (tnow : Int) :
    List ConsumptionEvent :=
  consumed.map (fun p =>
    { session_id := s.id, employee_id := s.employee_id,
      product_label := p.1, quantity := p.2, created_at := tnow })

/-- The consumed list computed by `session_close` (src/main.py lines
309-328): empty unless both capture ids are truthy (Python `if
payload.capture_before_id and payload.capture_after_id:`), else the
reconciliation of the two snapshot dicts. -/
def closeConsumed (db : DB) (payload : SessionCloseRequest) :
    List (String × Int) :=
  if truthyInt payload.capture_before_id && truthyInt payload.capture_after_id then
    let before_items := dictOfItems (captureItems db payload.capture_before_id)
    let after_items := dictOfItems (captureItems db payload.capture_after_id)
    reconcile before_items after_items
  else []

/-- The field updates `session_close` performs on the session row
(src/main.py lines 303-306). -/
def closedSession (s : FridgeSession) (payload : SessionCloseRequest)
    (tnow : Int) : FridgeSession :=
  { s with closed_at := some tnow,
           capture_before_id := payload.capture_before_id,
           capture_after_id := payload.capture_after_id,
           status := "closed" }

/-- `POST /api/session_close` (src/main.py lines 295-345): look up the
session (404 if none), stamp `closed_at`, overwrite both capture ids with
the request's values, set `status="closed"`; when both capture ids are
truthy, build the before/after dicts from the snapshot rows and run the
reconciliation loop, appending one consumption event per entry.  Returns
the updated database and either the error status or `(session_id, consumed)`. -/
def session_close (db : DB) (payload : SessionCloseRequest) (tnow : Int) :
    DB × Except Nat (Int × List (String × Int)) :=
  match db.sessions.find? (fun s => s.id == payload.session_id) with
  | none => (db, .error 404)
  | some s =>
    let consumed := closeConsumed db payload
    ({ db with sessions := replaceFirstSession db.sessions payload.session_id
                 (closedSession s payload tnow),
               events := db.events ++ eventsOf s consumed tnow },
     .ok (s.id, consumed))

/-- Response row of `GET /api/sessions_list`. -/
structure SessionListItem where
  id : Int
  employee_id : Int
  employee_code : String
  employee_name : String
  device_id : String
  opened_at : Int
  closed_at : Option Int
  capture_before_id : Option Int
  capture_after_id : Option Int
  status : String
  notes : Option String
deriving DecidableEq

/-- The `SessionListItem` built from one joined row. -/
def mkSessionListItem (s : FridgeSession) (e : Employee) : SessionListItem :=
  { id := s.id, employee_id := s.employee_id, employee_code := e.employee_code,
    employee_name := e.name, device_id := s.device_id, opened_at := s.opened_at,
    closed_at := s.closed_at, capture_before_id := s.capture_before_id,
    capture_after_id := s.capture_after_id, status := s.status, notes := s.notes }

/-- The inner join `FridgeSession ⋈ Employee` on `employee_id = Employee.id`. -/
def joinRows (db : DB) : List (FridgeSession × Employee) :=
  db.sessions.flatMap (fun s =>
    (db.employees.filter (fun e => e.id == s.employee_id)).map (fun e => (s, e)))

/-- `ORDER BY fridge_sessions.opened_at DESC` as a relation on joined rows. -/
def sessDescRel (a b : FridgeSession × Employee) : Prop :=
  b.1.opened_at ≤ a.1.opened_at

instance : DecidableRel sessDescRel := fun _ _ => Int.decLe _ _

instance : IsTotal (FridgeSession × Employee) sessDescRel :=
  ⟨fun a b => le_total b.1.opened_at a.1.opened_at⟩

instance : IsTrans (FridgeSession × Employee) sessDescRel :=
  ⟨fun _ _ _ hab hbc => le_trans hbc hab⟩

/-- `GET /api/sessions_list` (src/main.py lines 348-382): join sessions with
employees, order by `opened_at` descending, and filter on the employee code
when the query argument is truthy (non-`None`, non-empty). -/
def sessions_list (db : DB) (employee_code : Option String) :
    List SessionListItem :=
  if truthyStr employee_code then
    ((List.insertionSort sessDescRel (joinRows db)).filter
      (fun r => some r.2.employee_code == employee_code)).map
      (fun r => mkSessionListItem r.1 r.2)
  else
    (List.insertionSort sessDescRel (joinRows db)).map
      (fun r => mkSessionListItem r.1 r.2)

/-! ### Concrete database states used to exercise the endpoints -/

/-- One employee, one open session, a before-snapshot `{"milk": 5}`. -/
def dbC1x : DB :=
  { employees := [⟨1, "A", "Alice"⟩],
    sessions := [⟨1, 1, "dev", 100, none, none, none, "open", none⟩],
    vision_items := [⟨1, "milk", 5⟩],
    events := [] }

/-- Close request carrying the present capture ids `1` and `0`. -/
def reqC1x : SessionCloseRequest := ⟨1, some 1, some 0⟩

/-- One employee, one open session, snapshots `1 ↦ {"milk":5,"soda":2}`
and `2 ↦ {"milk":3}` (the worked example of the spec). -/
def dbC1w : DB :=
  { employees := [⟨1, "A", "Alice"⟩],
    sessions := [⟨1, 1, "dev", 100, none, none, none, "open", none⟩],
    vision_items := [⟨1, "milk", 5⟩, ⟨1, "soda", 2⟩, ⟨2, "milk", 3⟩],
    events := [] }

/-- Close request with both capture ids present and nonzero. -/
def reqC1w : SessionCloseRequest := ⟨1, some 1, some 2⟩

/-- One open session and a before-snapshot holding the unvalidated
quantity `-2`; capture `2` resolves to no rows. -/
def dbC2x : DB :=
  { employees := [⟨1, "A", "Alice"⟩],
    sessions := [⟨1, 1, "dev", 100, none, none, none, "open", none⟩],
    vision_items := [⟨1, "milk", -2⟩],
    events := [] }

/-- Close request naming before-capture `1` and the row-less capture `2`. -/
def reqC2x : SessionCloseRequest := ⟨1, some 1, some 2⟩

/-- One open session, before-snapshot `{"milk":5,"soda":2}`, and no rows
for the after-capture `2`. -/
def dbC2w : DB :=
  { employees := [⟨1, "A", "Alice"⟩],
    sessions := [⟨1, 1, "dev", 100, none, none, none, "open", none⟩],
    vision_items := [⟨1, "milk", 5⟩, ⟨1, "soda", 2⟩],
    events := [] }

/-- Close request naming before-capture `1` and the row-less capture `2`. -/
def reqC2w : SessionCloseRequest := ⟨1, some 1, some 2⟩

/-- One open session and a before-snapshot `{"cola": 4}` under capture `1`. -/
def dbC3x : DB :=
  { employees := [⟨1, "A", "Alice"⟩],
    sessions := [⟨1, 1, "dev", 100, none, none, none, "open", none⟩],
    vision_items := [⟨1, "cola", 4⟩],
    events := [] }

/-- Close request whose after-capture id is the present value `0`. -/
def reqC3x : SessionCloseRequest := ⟨1, some 1, some 0⟩

/-- The open session row of `dbC3w`. -/
def sesC3w : FridgeSession := ⟨1, 1, "dev", 100, none, none, none, "open", none⟩

/-- One open session with snapshots `1 ↦ {"milk":3}` and `2 ↦ {"milk":1}`. -/
def dbC3w : DB :=
  { employees := [⟨1, "A", "Alice"⟩],
    sessions := [sesC3w],
    vision_items := [⟨1, "milk", 3⟩, ⟨2, "milk", 1⟩],
    events := [] }

/-- Close request with both capture ids present and nonzero. -/
def reqC3w : SessionCloseRequest := ⟨1, some 1, some 2⟩

/-- A session that is already `closed` (first close at time `150` already
appended its consumption event), with its snapshots still in the store. -/
def dbC4x : DB :=
  { employees := [⟨1, "A", "Alice"⟩],
    sessions := [⟨1, 1, "dev", 100, some 150, some 1, some 2, "closed", none⟩],
    vision_items := [⟨1, "milk", 5⟩, ⟨2, "milk", 3⟩],
    events := [⟨1, 1, "milk", 2, 150⟩] }

/-- The close request replayed against the already-closed session. -/
def reqC4x : SessionCloseRequest := ⟨1, some 1, some 2⟩

/-- One open session with snapshots `1 ↦ {"milk":5}` and `2 ↦ {"milk":3}`. -/
def dbC5x : DB :=
  { employees := [⟨1, "A", "Alice"⟩],
    sessions := [⟨1, 1, "dev", 100, none, none, none, "open", none⟩],
    vision_items := [⟨1, "milk", 5⟩, ⟨2, "milk", 3⟩],
    events := [] }

/-- Close request used twice in a row on the same session. -/
def reqC5x : SessionCloseRequest := ⟨1, some 1, some 2⟩

/-- One open session with snapshots `1 ↦ {"milk":5,"soda":2}` and
`2 ↦ {"milk":3}`. -/
def dbC5w : DB :=
  { employees := [⟨1, "A", "Alice"⟩],
    sessions := [⟨1, 1, "dev", 100, none, none, none, "open", none⟩],
    vision_items := [⟨1, "milk", 5⟩, ⟨1, "soda", 2⟩, ⟨2, "milk", 3⟩],
    events := [] }

/-- Close request with both capture ids present and nonzero. -/
def reqC5w : SessionCloseRequest := ⟨1, some 1, some 2⟩

/-- An after-snapshot containing the label `"beer"` that the
before-snapshot does not mention. -/
def dbC6w : DB :=
  { employees := [⟨1, "A", "Alice"⟩],
    sessions := [⟨1, 1, "dev", 100, none, none, none, "open", none⟩],
    vision_items := [⟨1, "milk", 5⟩, ⟨2, "beer", 10⟩, ⟨2, "milk", 3⟩],
    events := [] }

/-- Close request with both capture ids present and nonzero. -/
def reqC6w : SessionCloseRequest := ⟨1, some 1, some 2⟩

/-- One employee `"A"` and one open session, for the lookup-failure cases. -/
def dbC7w : DB :=
  { employees := [⟨1, "A", "Alice"⟩],
    sessions := [⟨1, 1, "dev", 100, none, none, none, "open", none⟩],
    vision_items := [],
    events := [] }

/-- Session-start request naming the unknown employee code `"Z"`. -/
def reqC7w : SessionStartRequest := ⟨"Z", "dev"⟩

/-- Close request naming the unknown session id `9`. -/
def reqC7wClose : SessionCloseRequest := ⟨9, none, none⟩

/-- The open session row of `dbC8w`. -/
def sesC8w : FridgeSession := ⟨1, 1, "dev", 100, none, none, none, "open", none⟩

/-- Snapshots with unvalidated quantities: the before-snapshot holds
`{"milk":5,"junk":-3}` and the after-snapshot `{"milk":-1}`. -/
def dbC8w : DB :=
  { employees := [⟨1, "A", "Alice"⟩],
    sessions := [sesC8w],
    vision_items := [⟨1, "milk", 5⟩, ⟨1, "junk", -3⟩, ⟨2, "milk", -1⟩],
    events := [] }

/-- Close request with both capture ids present and nonzero. -/
def reqC8w : SessionCloseRequest := ⟨1, some 1, some 2⟩

/-- One employee with code `"A"` owning one session. -/
def dbC9x : DB :=
  { employees := [⟨1, "A", "Alice"⟩],
    sessions := [⟨1, 1, "dev", 100, none, none, none, "open", none⟩],
    vision_items := [],
    events := [] }

/-- Two employees and three sessions opened at times 100, 300 and 200. -/
def dbC9w : DB :=
  { employees := [⟨1, "A", "Alice"⟩, ⟨2, "B", "Bob"⟩],
    sessions := [⟨1, 1, "d1", 100, none, none, none, "open", none⟩,
                 ⟨2, 2, "d2", 300, none, none, none, "open", none⟩,
                 ⟨3, 1, "d3", 200, none, none, none, "open", none⟩],
    vision_items := [],
    events := [] }

/-- The close target of `dbC10w`: device id, notes and opened-at must
survive the close. -/
def sesC10w : FridgeSession :=
  ⟨1, 1, "dev", 100, none, none, none, "open", some "keep"⟩

/-- Two sessions; the close target (id `1`) sits second in query order. -/
def dbC10w : DB :=
  { employees := [⟨1, "A", "Alice"⟩],
    sessions := [⟨2, 1, "other", 50, none, none, none, "open", none⟩, sesC10w],
    vision_items := [⟨1, "milk", 5⟩],
    events := [] }

/-- Close request with both capture ids absent. -/
def reqC10w : SessionCloseRequest := ⟨1, none, none⟩

/-! ### Lemmas about the Python-dict embedding -/

theorem dictGet_nil (k : String) (dflt : Int) : dictGet [] k dflt = dflt := rfl

theorem dictGet_cons (q : String × Int) (d : List (String × Int)) (k : String)
    (dflt : Int) :
    dictGet (q :: d) k dflt = if q.1 == k then q.2 else dictGet d k dflt := by
  by_cases h : (q.1 == k) = true
  · simp [dictGet, List.find?_cons_of_pos _ h, h]
  · simp [dictGet, List.find?_cons_of_neg _ h, h]

theorem dictInsert_keys_pos {d : List (String × Int)} {k : String} (v : Int)
    (h : d.any (fun q => q.1 == k) = true) :
    (dictInsert d k v).map Prod.fst = d.map Prod.fst := by
  unfold dictInsert
  rw [if_pos h, List.map_map]
  apply List.map_congr_left
  intro q _
  by_cases hqk : (q.1 == k) = true
  · simp only [Function.comp_apply, hqk, if_pos]
    exact (eq_of_beq hqk).symm
  · simp only [Function.comp_apply]
    rw [if_neg (by simpa using hqk)]

theorem dictInsert_keys_neg {d : List (String × Int)} {k : String} (v : Int)
    (h : d.any (fun q => q.1 == k) = false) :
    (dictInsert d k v).map Prod.fst = d.map Prod.fst ++ [k] := by
  unfold dictInsert
  rw [if_neg (by simp [h])]
  simp

theorem not_mem_keys_of_any_false {d : List (String × Int)} {k : String}
    (h : d.any (fun q => q.1 == k) = false) : k ∉ d.map Prod.fst := by
  intro hk
  rcases List.mem_map.mp hk with ⟨q, hq, hq1⟩
  rcases List.any_eq_false.mp h q hq (by simp [hq1])

theorem keys_nodup_dictInsert {d : List (String × Int)} {k : String} (v : Int)
    (h : (d.map Prod.fst).Nodup) : ((dictInsert d k v).map Prod.fst).Nodup := by
  by_cases hany : d.any (fun q => q.1 == k) = true
  · rwa [dictInsert_keys_pos v hany]
  · rw [dictInsert_keys_neg v (Bool.eq_false_iff.mpr hany)]
    rw [List.nodup_append]
    exact ⟨h, List.nodup_singleton k,
      by simpa [List.disjoint_singleton] using
        not_mem_keys_of_any_false (Bool.eq_false_iff.mpr hany)⟩

theorem keys_nodup_foldl (rows : List VisionItem) :
    ∀ d : List (String × Int), (d.map Prod.fst).Nodup →
      ((rows.foldl (fun d i => dictInsert d i.label i.quantity) d).map
        Prod.fst).Nodup := by
  induction rows with
  | nil => exact fun d h => h
  | cons i rows ih => exact fun d h => ih _ (keys_nodup_dictInsert _ h)

theorem dict_keys_nodup (rows : List VisionItem) :
    ((dictOfItems rows).map Prod.fst).Nodup :=
  keys_nodup_foldl rows [] List.nodup_nil

theorem mem_keys_dictInsert {d : List (String × Int)} {k x : String} {v : Int}
    (hx : x ∈ (dictInsert d k v).map Prod.fst) :
    x ∈ d.map Prod.fst ∨ x = k := by
  by_cases hany : d.any (fun q => q.1 == k) = true
  · rw [dictInsert_keys_pos v hany] at hx
    exact .inl hx
  · rw [dictInsert_keys_neg v (Bool.eq_false_iff.mpr hany)] at hx
    rcases List.mem_append.mp hx with h | h
    · exact .inl h
    · exact .inr (List.mem_singleton.mp h)

theorem mem_keys_foldl {x : String} :
    ∀ (rows : List VisionItem) (d : List (String × Int)),
      x ∈ ((rows.foldl (fun d i => dictInsert d i.label i.quantity) d).map
        Prod.fst) →
      x ∈ d.map Prod.fst ∨ ∃ i ∈ rows, i.label = x := by
  intro rows
  induction rows with
  | nil => exact fun d hx => .inl hx
  | cons i rows ih =>
    intro d hx
    rcases ih _ hx with h | ⟨j, hj, hjx⟩
    · rcases mem_keys_dictInsert h with h' | rfl
      · exact .inl h'
      · exact .inr ⟨i, List.mem_cons_self _ _, rfl⟩
    · exact .inr ⟨j, List.mem_cons_of_mem _ hj, hjx⟩

theorem exists_row_of_mem_keys {rows : List VisionItem} {x : String}
    (hx : x ∈ (dictOfItems rows).map Prod.fst) : ∃ i ∈ rows, i.label = x := by
  rcases mem_keys_foldl rows [] hx with h | h
  · simp at h
  · exact h

theorem dictGet_of_mem :
    ∀ {d : List (String × Int)} {k : String} {v : Int},
      (d.map Prod.fst).Nodup → (k, v) ∈ d → dictGet d k 0 = v := by
  intro d
  induction d with
  | nil => intro k v _ hm; simp at hm
  | cons q d ih =>
    intro k v hnd hm
    rw [List.map_cons] at hnd
    have hnd' := List.nodup_cons.mp hnd
    rw [dictGet_cons]
    rcases List.mem_cons.mp hm with rfl | hm'
    · simp
    · by_cases hqk : (q.1 == k) = true
      · exfalso
        have hk : k ∈ d.map Prod.fst :=
          List.mem_map.mpr ⟨(k, v), hm', rfl⟩
        exact hnd'.1 (eq_of_beq hqk ▸ hk)
      · rw [if_neg hqk]
        exact ih hnd'.2 hm'

/-! ### Lemmas about the reconciliation loop -/

theorem reconcile_nil_before (A : List (String × Int)) : reconcile [] A = [] :=
  rfl

theorem reconcile_cons (q : String × Int) (B A : List (String × Int)) :
    reconcile (q :: B) A =
      if 0 < q.2 - dictGet A q.1 0 then
        (q.1, q.2 - dictGet A q.1 0) :: reconcile B A
      else reconcile B A := by
  unfold reconcile
  rw [List.filterMap_cons]
  by_cases h : 0 < q.2 - dictGet A q.1 0
  · simp [h]
  · simp [h]

theorem mem_reconcile {B A : List (String × Int)} {q : String × Int}
    (h : q ∈ reconcile B A) :
    ∃ p ∈ B, 0 < p.2 - dictGet A p.1 0 ∧ q = (p.1, p.2 - dictGet A p.1 0) := by
  unfold reconcile at h
  rw [List.mem_filterMap] at h
  obtain ⟨p, hp, he⟩ := h
  dsimp only at he
  split at he
  · exact ⟨p, hp, by assumption, (Option.some_inj.mp he).symm⟩
  · exact absurd he (by simp)

theorem reconcile_pos {B A : List (String × Int)} {q : String × Int}
    (h : q ∈ reconcile B A) : 0 < q.2 := by
  obtain ⟨p, _, hd, rfl⟩ := mem_reconcile h
  exact hd

theorem label_mem_of_mem_reconcile {B A : List (String × Int)}
    {q : String × Int} (h : q ∈ reconcile B A) : q.1 ∈ B.map Prod.fst := by
  obtain ⟨p, hp, _, rfl⟩ := mem_reconcile h
  exact show p.1 ∈ B.map Prod.fst from List.mem_map_of_mem _ hp

theorem reconcile_filter_of_not_mem {B A : List (String × Int)} {k : String}
    (hk : k ∉ B.map Prod.fst) :
    (reconcile B A).filter (fun q => q.1 == k) = [] := by
  rw [List.filter_eq_nil_iff]
  intro q hq hqk
  exact hk (eq_of_beq hqk ▸ label_mem_of_mem_reconcile hq)

theorem reconcile_filter_of_mem :
    ∀ {B A : List (String × Int)} {k : String} {qb : Int},
      (B.map Prod.fst).Nodup → (k, qb) ∈ B →
      (reconcile B A).filter (fun q => q.1 == k) =
        if 0 < qb - dictGet A k 0 then [(k, qb - dictGet A k 0)] else [] := by
  intro B
  induction B with
  | nil => intro A k qb _ hm; simp at hm
  | cons q B ih =>
    intro A k qb hnd hm
    rw [List.map_cons] at hnd
    have hnd' := List.nodup_cons.mp hnd
    rw [reconcile_cons]
    rcases List.mem_cons.mp hm with rfl | hm'
    · have hrest : (reconcile B A).filter (fun q => q.1 == k) = [] :=
        reconcile_filter_of_not_mem hnd'.1
      by_cases hd : 0 < qb - dictGet A k 0
      · rw [if_pos hd, if_pos hd, List.filter_cons_of_pos (by simp), hrest]
      · rw [if_neg hd, if_neg hd, hrest]
    · have hq1k : q.1 ≠ k := by
        intro hq1
        exact hnd'.1 (hq1 ▸ List.mem_map.mpr ⟨(k, qb), hm', rfl⟩)
      by_cases hd : 0 < q.2 - dictGet A q.1 0
      · rw [if_pos hd, List.filter_cons_of_neg (by simp [hq1k])]
        exact ih hnd'.2 hm'
      · rw [if_neg hd]
        exact ih hnd'.2 hm'

theorem reconcile_nil_after :
    ∀ B : List (String × Int), reconcile B [] = B.filter (fun q => 0 < q.2) := by
  intro B
  induction B with
  | nil => rfl
  | cons q B ih =>
    rw [reconcile_cons, dictGet_nil, sub_zero]
    by_cases h : 0 < q.2
    · rw [if_pos h, List.filter_cons_of_pos (by simpa using h), ih]
    · rw [if_neg h, List.filter_cons_of_neg (by simpa using h), ih]

theorem reconcile_labels_sublist :
    ∀ B A : List (String × Int),
      List.Sublist ((reconcile B A).map Prod.fst) (B.map Prod.fst) := by
  intro B A
  induction B with
  | nil => exact List.Sublist.refl _
  | cons q B ih =>
    rw [reconcile_cons]
    by_cases h : 0 < q.2 - dictGet A q.1 0
    · rw [if_pos h, List.map_cons, List.map_cons]
      exact ih.cons₂ q.1
    · rw [if_neg h, List.map_cons]
      exact ih.cons q.1

/-! ### Structural lemmas about the endpoints -/

theorem closeConsumed_of_truthy {db : DB} {p : SessionCloseRequest}
    (hb : truthyInt p.capture_before_id = true)
    (ha : truthyInt p.capture_after_id = true) :
    closeConsumed db p =
      reconcile (dictOfItems (captureItems db p.capture_before_id))
        (dictOfItems (captureItems db p.capture_after_id)) := by
  unfold closeConsumed
  rw [hb, ha]
  rfl

theorem closeConsumed_of_falsy {db : DB} {p : SessionCloseRequest}
    (h : (truthyInt p.capture_before_id && truthyInt p.capture_after_id) = false) :
    closeConsumed db p = [] := by
  unfold closeConsumed
  rw [h]
  simp

theorem session_close_of_find {db : DB} {p : SessionCloseRequest} {t : Int}
    {s : FridgeSession}
    (hfind : db.sessions.find? (fun x => x.id == p.session_id) = some s) :
    session_close db p t =
      ({ db with sessions := replaceFirstSession db.sessions p.session_id
                   (closedSession s p t),
                 events := db.events ++ eventsOf s (closeConsumed db p) t },
       .ok (s.id, closeConsumed db p)) := by
  unfold session_close
  rw [hfind]

theorem session_close_of_find_none {db : DB} {p : SessionCloseRequest} {t : Int}
    (hfind : db.sessions.find? (fun x => x.id == p.session_id) = none) :
    session_close db p t = (db, .error 404) := by
  unfold session_close
  rw [hfind]

theorem session_close_ok_inv {db : DB} {p : SessionCloseRequest} {t : Int}
    {sid : Int} {consumed : List (String × Int)}
    (hok : (session_close db p t).2 = .ok (sid, consumed)) :
    ∃ s, db.sessions.find? (fun x => x.id == p.session_id) = some s ∧
      sid = s.id ∧ consumed = closeConsumed db p := by
  cases hfind : db.sessions.find? (fun x => x.id == p.session_id) with
  | none =>
    rw [session_close_of_find_none hfind] at hok
    exact absurd hok (by simp)
  | some s =>
    rw [session_close_of_find hfind] at hok
    have h3 := Except.ok.inj hok
    have h4 : s.id = sid := congrArg Prod.fst h3
    have h5 : closeConsumed db p = consumed := congrArg Prod.snd h3
    exact ⟨s, rfl, h4.symm, h5.symm⟩

theorem replaceFirstSession_decomp :
    ∀ {l : List FridgeSession} {sid : Int} {s : FridgeSession}
      (s' : FridgeSession),
      l.find? (fun x => x.id == sid) = some s →
      ∃ l1 l2, l = l1 ++ s :: l2 ∧ (∀ x ∈ l1, x.id ≠ sid) ∧
        replaceFirstSession l sid s' = l1 ++ s' :: l2 := by
  intro l
  induction l with
  | nil => intro sid s s' hfind; simp at hfind
  | cons a l ih =>
    intro sid s s' hfind
    by_cases ha : (a.id == sid) = true
    · simp only [List.find?_cons, ha] at hfind
      refine ⟨[], l, ?_, by simp, ?_⟩
      · simp [Option.some_inj.mp hfind]
      · simp [replaceFirstSession, ha]
    · have ha' : (a.id == sid) = false := by simpa using ha
      simp only [List.find?_cons, ha'] at hfind
      obtain ⟨l1, l2, hl, hl1, hrep⟩ := ih s' hfind
      refine ⟨a :: l1, l2, by rw [hl]; rfl, ?_, ?_⟩
      · intro x hx
        rcases List.mem_cons.mp hx with rfl | hx'
        · simpa using ha
        · exact hl1 x hx'
      · simp [replaceFirstSession, ha', hrep]

theorem session_start_of_find {db : DB} {p : SessionStartRequest} {t newId : Int}
    {emp : Employee}
    (hfind : db.employees.find?
      (fun e => e.employee_code == p.employee_code) = some emp) :
    session_start db p t newId =
      ({ db with sessions := db.sessions ++
          [{ id := newId, employee_id := emp.id, device_id := p.device_id,
             opened_at := t, closed_at := none, capture_before_id := none,
             capture_after_id := none, status := "open", notes := none }] },
       .ok (newId, emp)) := by
  unfold session_start
  rw [hfind]

theorem session_start_of_find_none {db : DB} {p : SessionStartRequest}
    {t newId : Int}
    (hfind : db.employees.find?
      (fun e => e.employee_code == p.employee_code) = none) :
    session_start db p t newId = (db, .error 404) := by
  unfold session_start
  rw [hfind]

theorem session_close_result {db : DB} {p : SessionCloseRequest} {t : Int}
    {s : FridgeSession}
    (hfind : db.sessions.find? (fun x => x.id == p.session_id) = some s) :
    (session_close db p t).2 = .ok (s.id, closeConsumed db p) := by
  rw [session_close_of_find hfind]

theorem session_close_events {db : DB} {p : SessionCloseRequest} {t : Int}
    {s : FridgeSession}
    (hfind : db.sessions.find? (fun x => x.id == p.session_id) = some s) :
    (session_close db p t).1.events =
      db.events ++ eventsOf s (closeConsumed db p) t := by
  rw [session_close_of_find hfind]

theorem session_close_sessions {db : DB} {p : SessionCloseRequest} {t : Int}
    {s : FridgeSession}
    (hfind : db.sessions.find? (fun x => x.id == p.session_id) = some s) :
    (session_close db p t).1.sessions =
      replaceFirstSession db.sessions p.session_id (closedSession s p t) := by
  rw [session_close_of_find hfind]

theorem session_close_employees {db : DB} {p : SessionCloseRequest} {t : Int}
    {s : FridgeSession}
    (hfind : db.sessions.find? (fun x => x.id == p.session_id) = some s) :
    (session_close db p t).1.employees = db.employees := by
  rw [session_close_of_find hfind]

theorem session_close_vision_items {db : DB} {p : SessionCloseRequest} {t : Int}
    {s : FridgeSession}
    (hfind : db.sessions.find? (fun x => x.id == p.session_id) = some s) :
    (session_close db p t).1.vision_items = db.vision_items := by
  rw [session_close_of_find hfind]

theorem closeConsumed_quantity_pos {db : DB} {p : SessionCloseRequest} :
    ∀ q ∈ closeConsumed db p, 0 < q.2 := by
  intro q hq
  unfold closeConsumed at hq
  by_cases hg :
      (truthyInt p.capture_before_id && truthyInt p.capture_after_id) = true
  · rw [if_pos hg] at hq
    exact reconcile_pos hq
  · rw [if_neg hg] at hq
    simp at hq

theorem closeConsumed_labels_nodup {db : DB} {p : SessionCloseRequest} :
    ((closeConsumed db p).map Prod.fst).Nodup := by
  unfold closeConsumed
  by_cases hg :
      (truthyInt p.capture_before_id && truthyInt p.capture_after_id) = true
  · rw [if_pos hg]
    exact (dict_keys_nodup _).sublist (reconcile_labels_sublist _ _)
  · rw [if_neg hg]
    simp

theorem closeConsumed_label_mem_before {db : DB} {p : SessionCloseRequest}
    {q : String × Int} (hq : q ∈ closeConsumed db p) :
    ∃ i ∈ captureItems db p.capture_before_id, i.label = q.1 := by
  unfold closeConsumed at hq
  by_cases hg :
      (truthyInt p.capture_before_id && truthyInt p.capture_after_id) = true
  · rw [if_pos hg] at hq
    exact exists_row_of_mem_keys (label_mem_of_mem_reconcile hq)
  · rw [if_neg hg] at hq
    simp at hq

theorem truthyStr_of_ne {c : String} (h : c ≠ "") :
    truthyStr (some c) = true := by
  simp [truthyStr, h]

theorem mem_joinRows {db : DB} {r : FridgeSession × Employee} :
    r ∈ joinRows db ↔
      r.1 ∈ db.sessions ∧ r.2 ∈ db.employees ∧ r.2.id = r.1.employee_id := by
  unfold joinRows
  rw [List.mem_flatMap]
  constructor
  · rintro ⟨s, hs, hr⟩
    rcases List.mem_map.mp hr with ⟨e, he, rfl⟩
    rcases List.mem_filter.mp he with ⟨he', hid⟩
    exact ⟨hs, he', eq_of_beq hid⟩
  · rintro ⟨h1, h2, h3⟩
    exact ⟨r.1, h1, List.mem_map.mpr ⟨r.2,
      List.mem_filter.mpr ⟨h2, by simp [h3]⟩, rfl⟩⟩

theorem sessions_list_pairwise (db : DB) (c : Option String) :
    (sessions_list db c).Pairwise (fun x y => y.opened_at ≤ x.opened_at) := by
  have hs : (List.insertionSort sessDescRel (joinRows db)).Pairwise sessDescRel :=
    List.sorted_insertionSort sessDescRel (joinRows db)
  unfold sessions_list
  by_cases ht : truthyStr c = true
  · rw [if_pos ht, List.pairwise_map]
    exact (hs.filter _).imp (fun h => h)
  · rw [if_neg ht, List.pairwise_map]
    exact hs.imp (fun h => h)

theorem mem_sessions_list_some {db : DB} {c : String} {it : SessionListItem}
    (hc : c ≠ "") :
    it ∈ sessions_list db (some c) ↔
      ∃ s ∈ db.sessions, ∃ e ∈ db.employees, e.id = s.employee_id ∧
        e.employee_code = c ∧ it = mkSessionListItem s e := by
  unfold sessions_list
  rw [if_pos (truthyStr_of_ne hc), List.mem_map]
  constructor
  · rintro ⟨r, hr, rfl⟩
    obtain ⟨hr', hcode⟩ := List.mem_filter.mp hr
    rw [List.mem_insertionSort] at hr'
    obtain ⟨h1, h2, h3⟩ := mem_joinRows.mp hr'
    exact ⟨r.1, h1, r.2, h2, h3, Option.some.inj (eq_of_beq hcode), rfl⟩
  · rintro ⟨s, hs, e, he, hid, hcode, rfl⟩
    refine ⟨(s, e), List.mem_filter.mpr ⟨?_, beq_iff_eq.mpr (by rw [hcode])⟩, rfl⟩
    rw [List.mem_insertionSort]
    exact mem_joinRows.mpr ⟨hs, he, hid⟩

theorem mem_sessions_list_none {db : DB} {it : SessionListItem} :
    it ∈ sessions_list db none ↔
      ∃ s ∈ db.sessions, ∃ e ∈ db.employees, e.id = s.employee_id ∧
        it = mkSessionListItem s e := by
  unfold sessions_list
  rw [if_neg (by simp [truthyStr]), List.mem_map]
  constructor
  · rintro ⟨r, hr, rfl⟩
    rw [List.mem_insertionSort] at hr
    obtain ⟨h1, h2, h3⟩ := mem_joinRows.mp hr
    exact ⟨r.1, h1, r.2, h2, h3, rfl⟩
  · rintro ⟨s, hs, e, he, hid, rfl⟩
    exact ⟨(s, e), by
      rw [List.mem_insertionSort]
      exact mem_joinRows.mpr ⟨hs, he, hid⟩, rfl⟩

/-! ### Claim theorems -/

/-- Claim C1, counterexample: both capture ids are present (`some 1` and
`some 0`), the before-dict maps `"milk"` to `5` and the after-dict yields
`A.get("milk", 0) = 0 < 5`, yet the close emits no consumption entry at
all for `"milk"` — Python treats the present capture id `0` as falsy, so
the reconciliation engine is skipped. -/
theorem close_conservation_cex :
    reqC1x.capture_before_id.isSome = true ∧
    reqC1x.capture_after_id.isSome = true ∧
    ("milk", (5 : Int)) ∈ dictOfItems (captureItems dbC1x reqC1x.capture_before_id) ∧
    dictGet (dictOfItems (captureItems dbC1x reqC1x.capture_after_id)) "milk" 0 <
      (5 : Int) ∧
    (session_close dbC1x reqC1x 200).2 = .ok (1, []) ∧
    (session_close dbC1x reqC1x 200).1.events = [] :=
  ⟨rfl, rfl, by decide, by decide, rfl, rfl⟩

/-- Claim C1 (amended): for a successful close whose capture ids are both
present and nonzero, every label of the before-dict `B` with
`B[lab] > A.get(lab, 0)` yields exactly one consumption entry, carrying
quantity `B[lab] - A.get(lab, 0)`; labels with `A.get(lab, 0) >= B[lab]`
yield no entry. -/
theorem close_conservation (db : DB) (p : SessionCloseRequest) (t : Int)
    (sid : Int) (consumed : List (String × Int))
    (hok : (session_close db p t).2 = .ok (sid, consumed))
    (hb : truthyInt p.capture_before_id = true)
    (ha : truthyInt p.capture_after_id = true)
    (lab : String) (qb : Int)
    (hmem : (lab, qb) ∈ dictOfItems (captureItems db p.capture_before_id)) :
    (dictGet (dictOfItems (captureItems db p.capture_after_id)) lab 0 < qb →
      consumed.filter (fun q => q.1 == lab) =
        [(lab, qb - dictGet (dictOfItems (captureItems db p.capture_after_id)) lab 0)]) ∧
    (qb ≤ dictGet (dictOfItems (captureItems db p.capture_after_id)) lab 0 →
      consumed.filter (fun q => q.1 == lab) = []) := by
  obtain ⟨s, hfind, rfl, rfl⟩ := session_close_ok_inv hok
  rw [closeConsumed_of_truthy hb ha]
  rw [reconcile_filter_of_mem (dict_keys_nodup _) hmem]
  constructor
  · intro hlt
    rw [if_pos (by omega)]
  · intro hge
    rw [if_neg (by omega)]

/-- Claim C1, witness instance: the spec's worked example (before
`{"milk":5,"soda":2}`, after `{"milk":3}`) run through the amended
conservation theorem at label `"milk"`. -/
theorem close_conservation_witness :
    (session_close dbC1w reqC1w 200).2 = .ok (1, [("milk", 2), ("soda", 2)]) ∧
    truthyInt reqC1w.capture_before_id = true ∧
    truthyInt reqC1w.capture_after_id = true ∧
    ("milk", (5 : Int)) ∈ dictOfItems (captureItems dbC1w reqC1w.capture_before_id) ∧
    ((dictGet (dictOfItems (captureItems dbC1w reqC1w.capture_after_id)) "milk" 0 <
        (5 : Int) →
      [(("milk" : String), (2 : Int)), ("soda", 2)].filter (fun q => q.1 == "milk") =
        [("milk", 5 - dictGet (dictOfItems (captureItems dbC1w reqC1w.capture_after_id))
          "milk" 0)]) ∧
     ((5 : Int) ≤ dictGet (dictOfItems (captureItems dbC1w reqC1w.capture_after_id))
        "milk" 0 →
      [(("milk" : String), (2 : Int)), ("soda", 2)].filter (fun q => q.1 == "milk") = [])) :=
  ⟨rfl, rfl, rfl, by decide,
   close_conservation dbC1w reqC1w 200 1 [("milk", 2), ("soda", 2)]
     rfl rfl rfl "milk" 5 (by decide)⟩

/-- Claim C2, counterexample: both capture ids supplied, the after-capture
resolves to no rows, and the before-dict is `{"milk": -2}`; the claim
demands the emitted quantities to equal the before quantities for every
before-label, i.e. an entry for `"milk"`, but the close emits nothing
because the delta `-2` is not positive. -/
theorem close_missing_after_cex :
    captureItems dbC2x reqC2x.capture_after_id = [] ∧
    dictOfItems (captureItems dbC2x reqC2x.capture_before_id) = [("milk", -2)] ∧
    (session_close dbC2x reqC2x 200).2 = .ok (1, []) ∧
    (∀ q ∈ ([] : List (String × Int)), q.1 ≠ "milk") :=
  ⟨rfl, rfl, rfl, by simp⟩

/-- Claim C2 (amended): for a successful close whose capture ids are both
present and nonzero, a capture resolving to no snapshot rows is treated as
an empty dict: a row-less after-capture makes the consumed list exactly
the before-dict entries with positive quantity (each at its full before
quantity), and a row-less before-capture makes the consumed list empty. -/
theorem close_missing_capture (db : DB) (p : SessionCloseRequest) (t : Int)
    (sid : Int) (consumed : List (String × Int))
    (hok : (session_close db p t).2 = .ok (sid, consumed))
    (hb : truthyInt p.capture_before_id = true)
    (ha : truthyInt p.capture_after_id = true) :
    (captureItems db p.capture_after_id = [] →
      consumed = (dictOfItems (captureItems db p.capture_before_id)).filter
        (fun q => 0 < q.2)) ∧
    (captureItems db p.capture_before_id = [] → consumed = []) := by
  obtain ⟨s, hfind, rfl, rfl⟩ := session_close_ok_inv hok
  rw [closeConsumed_of_truthy hb ha]
  constructor
  · intro hafter
    rw [hafter]
    exact reconcile_nil_after _
  · intro hbefore
    rw [hbefore]
    rfl

/-- Claim C2, witness instance: before `{"milk":5,"soda":2}`, after-capture
with no rows; the consumed list equals the before entries in full. -/
theorem close_missing_capture_witness :
    (session_close dbC2w reqC2w 200).2 = .ok (1, [("milk", 5), ("soda", 2)]) ∧
    truthyInt reqC2w.capture_before_id = true ∧
    truthyInt reqC2w.capture_after_id = true ∧
    ((captureItems dbC2w reqC2w.capture_after_id = [] →
      [(("milk" : String), (5 : Int)), ("soda", 2)] =
        (dictOfItems (captureItems dbC2w reqC2w.capture_before_id)).filter
          (fun q => 0 < q.2)) ∧
     (captureItems dbC2w reqC2w.capture_before_id = [] →
      [(("milk" : String), (5 : Int)), ("soda", 2)] = [])) :=
  ⟨rfl, rfl, rfl,
   close_missing_capture dbC2w reqC2w 200 1 [("milk", 5), ("soda", 2)] rfl rfl rfl⟩

/-- Claim C3, counterexample: both capture ids are present (`some 1`,
`some 0`) and the reconciliation of the two resolved snapshots is the
nonempty `[("cola", 4)]`, yet the close returns an empty consumed list and
writes no events — the present id `0` is falsy in Python, so the engine is
not invoked even though both ids are present. -/
theorem close_delegation_cex :
    reqC3x.capture_before_id.isSome = true ∧
    reqC3x.capture_after_id.isSome = true ∧
    reconcile (dictOfItems (captureItems dbC3x reqC3x.capture_before_id))
      (dictOfItems (captureItems dbC3x reqC3x.capture_after_id)) = [("cola", 4)] ∧
    (session_close dbC3x reqC3x 200).2 = .ok (1, []) ∧
    (session_close dbC3x reqC3x 200).1.events = [] ∧
    ([] : List (String × Int)) ≠ [("cola", 4)] :=
  ⟨rfl, rfl, rfl, rfl, rfl, by decide⟩

/-- Claim C3 (amended): on a close of an existing session, the
reconciliation engine runs if and only if both capture ids are present and
nonzero (Python-truthy); when either is absent or zero, the session is
still closed but the consumed list is empty and no consumption event is
written. -/
theorem close_delegation (db : DB) (p : SessionCloseRequest) (t : Int)
    (s : FridgeSession)
    (hfind : db.sessions.find? (fun x => x.id == p.session_id) = some s) :
    ((truthyInt p.capture_before_id && truthyInt p.capture_after_id) = true →
      (session_close db p t).2 = .ok (s.id,
        reconcile (dictOfItems (captureItems db p.capture_before_id))
          (dictOfItems (captureItems db p.capture_after_id))) ∧
      (session_close db p t).1.events = db.events ++
        eventsOf s (reconcile (dictOfItems (captureItems db p.capture_before_id))
          (dictOfItems (captureItems db p.capture_after_id))) t) ∧
    ((truthyInt p.capture_before_id && truthyInt p.capture_after_id) = false →
      (session_close db p t).2 = .ok (s.id, []) ∧
      (session_close db p t).1.events = db.events) ∧
    (∃ s' ∈ (session_close db p t).1.sessions, s'.id = s.id ∧
      s'.status = "closed") := by
  refine ⟨?_, ?_, ?_⟩
  · intro hg
    obtain ⟨hb, ha⟩ : truthyInt p.capture_before_id = true ∧
        truthyInt p.capture_after_id = true := by simpa using hg
    rw [session_close_result hfind, session_close_events hfind,
      closeConsumed_of_truthy hb ha]
    exact ⟨rfl, rfl⟩
  · intro hg
    rw [session_close_result hfind, session_close_events hfind,
      closeConsumed_of_falsy hg]
    exact ⟨rfl, by simp [eventsOf]⟩
  · obtain ⟨l1, l2, _, _, hrep⟩ :=
      replaceFirstSession_decomp (closedSession s p t) hfind
    refine ⟨closedSession s p t, ?_, rfl, rfl⟩
    rw [session_close_sessions hfind, hrep]
    exact List.mem_append.mpr (.inr (List.mem_cons_self _ _))

/-- Claim C3, witness instance: the amended delegation theorem applied to a
database whose session `1` is open, with snapshots `1 ↦ {"milk":3}` and
`2 ↦ {"milk":1}`. -/
theorem close_delegation_witness :
    dbC3w.sessions.find? (fun x => x.id == reqC3w.session_id) = some sesC3w ∧
    (((truthyInt reqC3w.capture_before_id && truthyInt reqC3w.capture_after_id) = true →
      (session_close dbC3w reqC3w 200).2 = .ok (sesC3w.id,
        reconcile (dictOfItems (captureItems dbC3w reqC3w.capture_before_id))
          (dictOfItems (captureItems dbC3w reqC3w.capture_after_id))) ∧
      (session_close dbC3w reqC3w 200).1.events = dbC3w.events ++
        eventsOf sesC3w
          (reconcile (dictOfItems (captureItems dbC3w reqC3w.capture_before_id))
            (dictOfItems (captureItems dbC3w reqC3w.capture_after_id))) 200) ∧
     ((truthyInt reqC3w.capture_before_id && truthyInt reqC3w.capture_after_id) = false →
      (session_close dbC3w reqC3w 200).2 = .ok (sesC3w.id, []) ∧
      (session_close dbC3w reqC3w 200).1.events = dbC3w.events) ∧
     (∃ s' ∈ (session_close dbC3w reqC3w 200).1.sessions, s'.id = sesC3w.id ∧
       s'.status = "closed")) :=
  ⟨rfl, close_delegation dbC3w reqC3w 200 sesC3w rfl⟩

/-- Claim C4: the session of `dbC4x` already has status `"closed"` (its
first close at time `150` recorded the event `("milk", 2)`), yet replaying
`session_close` succeeds with a freshly recomputed consumed list and
appends a second consumption event instead of failing — the code has no
status guard on close. -/
theorem close_already_closed_succeeds :
    (dbC4x.sessions.find? (fun s => s.id == (1 : Int))).map
      (fun s => s.status) = some "closed" ∧
    (session_close dbC4x reqC4x 200).2 = .ok (1, [("milk", 2)]) ∧
    (session_close dbC4x reqC4x 200).1.events =
      [⟨1, 1, "milk", 2, 150⟩, ⟨1, 1, "milk", 2, 200⟩] :=
  ⟨rfl, rfl, rfl⟩

/-- Claim C5, counterexample: closing session `1` of `dbC5x` twice with the
same captures leaves two ledger entries for the pair (session `1`,
label `"milk"`), because the second close recomputes and appends again. -/
theorem ledger_per_label_cex :
    ((session_close (session_close dbC5x reqC5x 200).1 reqC5x 300).1.events.filter
      (fun e => e.session_id == (1 : Int) && e.product_label == "milk")).length
      = 2 ∧ ¬ ((2 : Nat) ≤ 1) :=
  ⟨rfl, by decide⟩

/-- Claim C5 (amended): a single close operation never appends two
consumption entries with the same label: the consumed list has pairwise
distinct labels, and the events appended by that close have pairwise
distinct (session id, product label) pairs. -/
theorem close_label_unique (db : DB) (p : SessionCloseRequest) (t : Int)
    (sid : Int) (consumed : List (String × Int))
    (hok : (session_close db p t).2 = .ok (sid, consumed)) :
    (consumed.map Prod.fst).Nodup ∧
    ∃ newEvs, (session_close db p t).1.events = db.events ++ newEvs ∧
      (newEvs.map (fun e => (e.session_id, e.product_label))).Nodup := by
  obtain ⟨s, hfind, rfl, rfl⟩ := session_close_ok_inv hok
  refine ⟨closeConsumed_labels_nodup, eventsOf s (closeConsumed db p) t,
    session_close_events hfind, ?_⟩
  have hmap : (eventsOf s (closeConsumed db p) t).map
      (fun e => (e.session_id, e.product_label)) =
      ((closeConsumed db p).map Prod.fst).map (fun lab => (s.id, lab)) := by
    unfold eventsOf
    rw [List.map_map, List.map_map]
    rfl
  rw [hmap]
  exact closeConsumed_labels_nodup.map (fun a b hab => congrArg Prod.snd hab)

/-- Claim C5, witness instance: the single close of `dbC5w` emits
`[("milk", 2), ("soda", 2)]`, whose labels are distinct, and appends
events with distinct (session, label) pairs. -/
theorem close_label_unique_witness :
    (session_close dbC5w reqC5w 200).2 = .ok (1, [("milk", 2), ("soda", 2)]) ∧
    (([(("milk" : String), (2 : Int)), ("soda", 2)].map Prod.fst).Nodup ∧
     ∃ newEvs, (session_close dbC5w reqC5w 200).1.events =
        dbC5w.events ++ newEvs ∧
       (newEvs.map (fun e => (e.session_id, e.product_label))).Nodup) :=
  ⟨rfl, close_label_unique dbC5w reqC5w 200 1 [("milk", 2), ("soda", 2)] rfl⟩

/-- Claim C6: a label that occurs in no row of the before-capture — even
one present in the after-capture with a large quantity — never occurs in
the consumed list, and every ledger event either predates the close or
carries a different label. -/
theorem close_no_restock (db : DB) (p : SessionCloseRequest) (t : Int)
    (sid : Int) (consumed : List (String × Int)) (lab : String)
    (hok : (session_close db p t).2 = .ok (sid, consumed))
    (hnb : ∀ i ∈ captureItems db p.capture_before_id, i.label ≠ lab) :
    (∀ q ∈ consumed, q.1 ≠ lab) ∧
    (∀ e ∈ (session_close db p t).1.events, e ∈ db.events ∨
      e.product_label ≠ lab) := by
  obtain ⟨s, hfind, rfl, rfl⟩ := session_close_ok_inv hok
  have hcons : ∀ q ∈ closeConsumed db p, q.1 ≠ lab := by
    intro q hq hql
    obtain ⟨i, hi, hil⟩ := closeConsumed_label_mem_before hq
    exact hnb i hi (hql ▸ hil)
  refine ⟨hcons, ?_⟩
  intro e he
  rw [session_close_events hfind] at he
  rcases List.mem_append.mp he with h | h
  · exact .inl h
  · right
    unfold eventsOf at h
    obtain ⟨q, hq, rfl⟩ := List.mem_map.mp h
    exact hcons q hq

/-- Claim C6, witness instance: `"beer"` appears only in the
after-capture of `dbC6w` (with quantity 10); it never shows up in the
consumed list `[("milk", 2)]` or in the appended events. -/
theorem close_no_restock_witness :
    (session_close dbC6w reqC6w 200).2 = .ok (1, [("milk", 2)]) ∧
    (∀ i ∈ captureItems dbC6w reqC6w.capture_before_id, i.label ≠ "beer") ∧
    ((∀ q ∈ [(("milk" : String), (2 : Int))], q.1 ≠ "beer") ∧
     (∀ e ∈ (session_close dbC6w reqC6w 200).1.events, e ∈ dbC6w.events ∨
       e.product_label ≠ "beer")) :=
  ⟨rfl, by decide,
   close_no_restock dbC6w reqC6w 200 1 [("milk", 2)] "beer" rfl (by decide)⟩

/-- Claim C7: `session_start` answers 404 exactly when no employee carries
the requested code, `session_close` answers 404 exactly when no session
carries the requested id, and in both failure cases the database is
returned unchanged. -/
theorem lookup_failures (db : DB) (sp : SessionStartRequest)
    (cp : SessionCloseRequest) (t t2 newId : Int) :
    ((session_start db sp t newId).2 = .error 404 ↔
      ∀ e ∈ db.employees, e.employee_code ≠ sp.employee_code) ∧
    ((session_start db sp t newId).2 = .error 404 →
      (session_start db sp t newId).1 = db) ∧
    ((session_close db cp t2).2 = .error 404 ↔
      ∀ s ∈ db.sessions, s.id ≠ cp.session_id) ∧
    ((session_close db cp t2).2 = .error 404 →
      (session_close db cp t2).1 = db) := by
  refine ⟨?_, ?_, ?_, ?_⟩
  · cases hfind : db.employees.find?
        (fun e => e.employee_code == sp.employee_code) with
    | none =>
      rw [session_start_of_find_none hfind]
      constructor
      · intro _ e he heq
        exact List.find?_eq_none.mp hfind e he (by simp [heq])
      · intro _
        rfl
    | some emp =>
      rw [session_start_of_find hfind]
      constructor
      · intro h
        exact absurd h (by simp)
      · intro hall
        have hp := List.find?_some hfind
        exact absurd (eq_of_beq hp)
          (hall emp (List.mem_of_find?_eq_some hfind))
  · cases hfind : db.employees.find?
        (fun e => e.employee_code == sp.employee_code) with
    | none =>
      rw [session_start_of_find_none hfind]
      intro _
      rfl
    | some emp =>
      rw [session_start_of_find hfind]
      intro h
      exact absurd h (by simp)
  · cases hfind : db.sessions.find? (fun x => x.id == cp.session_id) with
    | none =>
      rw [session_close_of_find_none hfind]
      constructor
      · intro _ s hs heq
        exact List.find?_eq_none.mp hfind s hs (by simp [heq])
      · intro _
        rfl
    | some s =>
      rw [session_close_of_find hfind]
      constructor
      · intro h
        exact absurd h (by simp)
      · intro hall
        have hp := List.find?_some hfind
        exact absurd (eq_of_beq hp)
          (hall s (List.mem_of_find?_eq_some hfind))
  · cases hfind : db.sessions.find? (fun x => x.id == cp.session_id) with
    | none =>
      rw [session_close_of_find_none hfind]
      intro _
      rfl
    | some s =>
      rw [session_close_of_find hfind]
      intro h
      exact absurd h (by simp)

/-- Claim C7, witness instance: against `dbC7w`, starting a session for
the unknown code `"Z"` and closing the unknown session `9` both answer
404 with the database unchanged. -/
theorem lookup_failures_witness :
    ((session_start dbC7w reqC7w 300 5).2 = .error 404 ↔
      ∀ e ∈ dbC7w.employees, e.employee_code ≠ reqC7w.employee_code) ∧
    ((session_start dbC7w reqC7w 300 5).2 = .error 404 →
      (session_start dbC7w reqC7w 300 5).1 = dbC7w) ∧
    ((session_close dbC7w reqC7wClose 300).2 = .error 404 ↔
      ∀ s ∈ dbC7w.sessions, s.id ≠ reqC7wClose.session_id) ∧
    ((session_close dbC7w reqC7wClose 300).2 = .error 404 →
      (session_close dbC7w reqC7wClose 300).1 = dbC7w) :=
  lookup_failures dbC7w reqC7w reqC7wClose 300 300 5

/-- Claim C8: a successful close answers with the found session's id and
appends exactly one event per consumed entry; every appended event takes
its `employee_id` and `session_id` from the session row, its label and
quantity from the engine's entry, carries the close timestamp, and has a
strictly positive quantity — even when the snapshot rows hold negative
quantities. -/
theorem close_event_attribution (db : DB) (p : SessionCloseRequest) (t : Int)
    (s : FridgeSession)
    (hfind : db.sessions.find? (fun x => x.id == p.session_id) = some s) :
    (session_close db p t).2 = .ok (s.id, closeConsumed db p) ∧
    ∃ newEvs, (session_close db p t).1.events = db.events ++ newEvs ∧
      newEvs.length = (closeConsumed db p).length ∧
      ∀ e ∈ newEvs, e.employee_id = s.employee_id ∧ e.session_id = s.id ∧
        0 < e.quantity ∧ (e.product_label, e.quantity) ∈ closeConsumed db p ∧
        e.created_at = t := by
  refine ⟨session_close_result hfind, eventsOf s (closeConsumed db p) t,
    session_close_events hfind, by simp [eventsOf], ?_⟩
  intro e he
  unfold eventsOf at he
  obtain ⟨q, hq, rfl⟩ := List.mem_map.mp he
  refine ⟨rfl, rfl, closeConsumed_quantity_pos q hq, ?_, rfl⟩
  simpa using hq

/-- Claim C8, witness instance: with before `{"milk":5,"junk":-3}` and
after `{"milk":-1}` the engine emits `("milk", 6)`; the appended event is
attributed to session `1` and employee `1` with positive quantity. -/
theorem close_event_attribution_witness :
    dbC8w.sessions.find? (fun x => x.id == reqC8w.session_id) = some sesC8w ∧
    ((session_close dbC8w reqC8w 200).2 =
        .ok (sesC8w.id, closeConsumed dbC8w reqC8w) ∧
     ∃ newEvs, (session_close dbC8w reqC8w 200).1.events =
        dbC8w.events ++ newEvs ∧
       newEvs.length = (closeConsumed dbC8w reqC8w).length ∧
       ∀ e ∈ newEvs, e.employee_id = sesC8w.employee_id ∧
         e.session_id = sesC8w.id ∧ 0 < e.quantity ∧
         (e.product_label, e.quantity) ∈ closeConsumed dbC8w reqC8w ∧
         e.created_at = 200) :=
  ⟨rfl, close_event_attribution dbC8w reqC8w 200 sesC8w rfl⟩

/-- Claim C9, counterexample: the query argument `employee_code = ""` is
given, yet the returned session belongs to the employee with code `"A"` —
Python treats the given empty string as falsy and skips the filter, so the
result is not filtered to the requested code. -/
theorem sessions_list_filter_cex :
    (sessions_list dbC9x (some "")).map (fun it => it.employee_code) = ["A"] ∧
    ("A" : String) ≠ "" :=
  ⟨rfl, by decide⟩

/-- Claim C9 (amended): for a given non-empty employee code, the listing
returns exactly the sessions joined with an employee carrying that code,
ordered by `opened_at` descending; with no code given it returns every
session joined with its employee, in the same order. -/
theorem sessions_list_spec (db : DB) (c : String) (hc : c ≠ "") :
    (sessions_list db (some c)).Pairwise
      (fun x y => y.opened_at ≤ x.opened_at) ∧
    (∀ it, it ∈ sessions_list db (some c) ↔
      ∃ s ∈ db.sessions, ∃ e ∈ db.employees, e.id = s.employee_id ∧
        e.employee_code = c ∧ it = mkSessionListItem s e) ∧
    (sessions_list db none).Pairwise
      (fun x y => y.opened_at ≤ x.opened_at) ∧
    (∀ it, it ∈ sessions_list db none ↔
      ∃ s ∈ db.sessions, ∃ e ∈ db.employees, e.id = s.employee_id ∧
        it = mkSessionListItem s e) :=
  ⟨sessions_list_pairwise db (some c),
   fun _ => mem_sessions_list_some hc,
   sessions_list_pairwise db none,
   fun _ => mem_sessions_list_none⟩

/-- Claim C9, witness instance: the listing spec applied to the two
employees and three sessions of `dbC9w` with the non-empty code `"A"`. -/
theorem sessions_list_spec_witness :
    ("A" : String) ≠ "" ∧
    ((sessions_list dbC9w (some "A")).Pairwise
      (fun x y => y.opened_at ≤ x.opened_at) ∧
     (∀ it, it ∈ sessions_list dbC9w (some "A") ↔
       ∃ s ∈ dbC9w.sessions, ∃ e ∈ dbC9w.employees, e.id = s.employee_id ∧
         e.employee_code = "A" ∧ it = mkSessionListItem s e) ∧
     (sessions_list dbC9w none).Pairwise
      (fun x y => y.opened_at ≤ x.opened_at) ∧
     (∀ it, it ∈ sessions_list dbC9w none ↔
       ∃ s ∈ dbC9w.sessions, ∃ e ∈ dbC9w.employees, e.id = s.employee_id ∧
         it = mkSessionListItem s e)) :=
  ⟨by decide, sessions_list_spec dbC9w "A" (by decide)⟩

/-- Claim C10: a close on an existing session replaces exactly the first
session row matching the id: `closed_at` is stamped, both capture id
fields are unconditionally overwritten with the request's values (so
absent ids store `none`), `status` becomes `"closed"`, and every other
field — `id`, `employee_id`, `device_id`, `opened_at`, `notes` — as well
as every other session row, the employees table and the vision items are
left unchanged. -/
theorem close_frame (db : DB) (p : SessionCloseRequest) (t : Int)
    (s : FridgeSession)
    (hfind : db.sessions.find? (fun x => x.id == p.session_id) = some s) :
    ∃ l1 l2, db.sessions = l1 ++ s :: l2 ∧
      (∀ x ∈ l1, x.id ≠ p.session_id) ∧
      (session_close db p t).1.sessions =
        l1 ++ { s with closed_at := some t,
                       capture_before_id := p.capture_before_id,
                       capture_after_id := p.capture_after_id,
                       status := "closed" } :: l2 ∧
      (session_close db p t).1.employees = db.employees ∧
      (session_close db p t).1.vision_items = db.vision_items := by
  obtain ⟨l1, l2, hl, hl1, hrep⟩ :=
    replaceFirstSession_decomp (closedSession s p t) hfind
  refine ⟨l1, l2, hl, hl1, ?_, session_close_employees hfind,
    session_close_vision_items hfind⟩
  rw [session_close_sessions hfind, hrep]
  rfl

/-- Claim C10, witness instance: closing session `1` of `dbC10w` with both
capture ids absent touches only the targeted row (second in query order),
stores `none` in both capture fields, and keeps device id, opened-at and
notes. -/
theorem close_frame_witness :
    dbC10w.sessions.find? (fun x => x.id == reqC10w.session_id) =
      some sesC10w ∧
    (∃ l1 l2, dbC10w.sessions = l1 ++ sesC10w :: l2 ∧
      (∀ x ∈ l1, x.id ≠ reqC10w.session_id) ∧
      (session_close dbC10w reqC10w 200).1.sessions =
        l1 ++ { sesC10w with closed_at := some 200,
                             capture_before_id := reqC10w.capture_before_id,
                             capture_after_id := reqC10w.capture_after_id,
                             status := "closed" } :: l2 ∧
      (session_close dbC10w reqC10w 200).1.employees = dbC10w.employees ∧
      (session_close dbC10w reqC10w 200).1.vision_items =
        dbC10w.vision_items) :=
  ⟨rfl, close_frame dbC10w reqC10w 200 sesC10w rfl⟩

end IceVision
